import Mathlib

/-!
Verification of the SRTNet C++ wrapper (Unit-X/srt-cpp) lifecycle and
event-engine specification, as a shallow embedding.

The repository ships the public header `src/SRTNet.h` (declarations and
API contracts), the unit tests `src/test/TestSrt.cpp` and documentation.
The body of `SRTNet.cpp` is not part of the source tree available here,
so the behaviour of `startServer`, `startClient`, `stop`, `sendData` and
the event engine is modelled from the specification and from the
contracts stated in the header doc comments; each such definition says
so in its doc comment.  Enumerations, sentinel values and signatures are
taken directly from `src/SRTNet.h`.
-/

/-- Operating mode of an SRTNet instance, from `src/SRTNet.h:50`
`enum class Mode | unknown, server, client`. -/
inductive Mode
  | unknown
  | server
  | client
deriving DecidableEq

/-- Result of a client connect attempt, from `src/SRTNet.h:395-399`
`enum ClientConnectStatus`: `success` (client connected),
`failToResolveAddress` (remote ip or port could not be resolved),
`failToConnect` (client was not able to connect to the server). -/
inductive ClientConnectStatus
  | success
  | failToResolveAddress
  | failToConnect
deriving DecidableEq

/-- Connection information fetched when a peer connects, from
`src/SRTNet.h:61-64`.  The C++ struct carries default member
initializers, which a default-constructed object holds. -/
structure ConnectionInformation where
  mPeerSrtVersion : String := "n/a"
  mNegotiatedLatency : Int := -1
deriving DecidableEq

/-- A default-constructed `ConnectionInformation`, i.e. the C++
`SRTNet::ConnectionInformation()` value built from the default member
initializers in `src/SRTNet.h:61-64`. -/
def defaultConnectionInformation : ConnectionInformation := {}

/-- Modelled from the spec: the environment a client connect attempt
runs against (the body of `SRTNet::clientConnectToServer` is not in the
source tree).  Either the remote address is invalid, or no listener is
reachable, or a listener is reachable and the pre-shared keys either
match or mismatch. -/
inductive ConnectEnv
  | reachable (pskMatches : Bool)
  | noListener
  | badAddress
deriving DecidableEq

/-- Modelled from the spec: `SRTNet::clientConnectToServer` maps the
environment to a `ClientConnectStatus` (the function body is not in the
source tree).  Per spec section 4.1 a resolution failure returns
`failToResolveAddress`; per section 4.6 a mismatched pre-shared key
surfaces as `failToConnect` (the handshake is rejected by the peer), as
does an unreachable listener. -/
def clientConnectToServer : ConnectEnv → ClientConnectStatus
  | .badAddress => .failToResolveAddress
  | .noListener => .failToConnect
  | .reachable pskMatches => if pskMatches then .success else .failToConnect

/-- Whether a connect attempt failed because the reachable peer rejected
the handshake over a mismatched pre-shared key. -/
def pskRejected : ConnectEnv → Bool
  | .reachable pskMatches => !pskMatches
  | _ => false

/-- Observable state of one `SRTNet` instance: the mode and activity
flags, worker-thread bookkeeping, the client connected flag, the server
registry of accepted sockets (`mClientList` in `src/SRTNet.h:455`), the
locally bound port, and which of the five public callback slots
(`src/SRTNet.h:296-325`, all initialized to `nullptr`) are installed. -/
structure SRTNetState where
  mCurrentMode : Mode
  mServerActive : Bool
  mClientActive : Bool
  workerRunning : Bool
  mClientConnected : Bool
  mClientList : List Nat
  boundPort : Nat
  hasClientConnected : Bool
  hasReceivedData : Bool
  hasReceivedDataNoCopy : Bool
  hasClientDisconnected : Bool
  hasConnectedToServer : Bool
deriving DecidableEq

/-- State of a freshly constructed `SRTNet` instance: unknown mode,
nothing active, empty registry, no bound port, no callbacks installed
(all callback members default to `nullptr` in `src/SRTNet.h`). -/
def initState : SRTNetState :=
  { mCurrentMode := .unknown
    mServerActive := false
    mClientActive := false
    workerRunning := false
    mClientConnected := false
    mClientList := []
    boundPort := 0
    hasClientConnected := false
    hasReceivedData := false
    hasReceivedDataNoCopy := false
    hasClientDisconnected := false
    hasConnectedToServer := false }

/-- `SRTNet::getCurrentMode` (`src/SRTNet.h:271`). -/
def getCurrentMode (st : SRTNetState) : Mode := st.mCurrentMode

/-- `SRTNet::isConnectedToServer` (`src/SRTNet.h:245`): true if the
client is connected to the remote end, false otherwise or if the
instance is in server mode. -/
def isConnectedToServer (st : SRTNetState) : Bool :=
  match st.mCurrentMode with
  | .client => st.mClientConnected
  | _ => false

/-- `SRTNet::getLocallyBoundPort` (`src/SRTNet.h:263`): the bound port
if assigned, otherwise 0. -/
def getLocallyBoundPort (st : SRTNetState) : Nat := st.boundPort

/-- `SRTNet::getActiveClientSockets` (`src/SRTNet.h:227`): the sockets
of all active clients (server registry snapshot). -/
def getActiveClientSockets (st : SRTNetState) : List Nat := st.mClientList

/-- Modelled from the spec: `SRTNet::startClient` (the body is not in
the source tree).  Per the header contract (`src/SRTNet.h:118-127`): if
`failOnConnectionError` is true and the initial synchronous connect
attempt fails the call returns false; if it is false the client starts
an internal worker thread that keeps trying to connect; the call returns
true if the configuration was accepted and the remote address could be
resolved, and it also returns false in case the connection can be made
but the provided PSK does not match the PSK on the server (stated
without reference to the flag, and exercised with the flag false by
`TestPsk`, `src/test/TestSrt.cpp:255`).  A failed start leaves the
instance unchanged; mode transitions happen only from unknown mode. -/
def startClient (st : SRTNetState) (env : ConnectEnv)
    (failOnConnectionError : Bool) : Bool × SRTNetState :=
  if st.mCurrentMode ≠ Mode.unknown then (false, st)
  else
    match clientConnectToServer env with
    | .success =>
        (true, { st with mCurrentMode := .client, mClientActive := true,
                         workerRunning := true, mClientConnected := true })
    | .failToResolveAddress => (false, st)
    | .failToConnect =>
        if failOnConnectionError || pskRejected env then (false, st)
        else
          (true, { st with mCurrentMode := .client, mClientActive := true,
                           workerRunning := true, mClientConnected := false })

/-- Modelled from the spec: `SRTNet::startServer` (the body is not in
the source tree).  Per spec section 4.7 it must fail if the
`clientConnected` callback is not installed; otherwise it fails if the
instance is already started or the local endpoint cannot be bound, and
on success the instance enters server mode with the listener bound to
`port`. -/
def startServer (st : SRTNetState) (bindOk : Bool) (port : Nat) :
    Bool × SRTNetState :=
  if !st.hasClientConnected then (false, st)
  else if st.mCurrentMode ≠ Mode.unknown then (false, st)
  else if !bindOk then (false, st)
  else
    (true, { st with mCurrentMode := .server, mServerActive := true,
                     workerRunning := true, boundPort := port })

/-- Modelled from the spec: `SRTNet::stop` (the body is not in the
source tree).  Per spec section 4.7 it clears the active atomics, closes
the sockets, joins the worker threads, drains the registry and returns
the instance to unknown mode; it always succeeds.  The callback slots
are member variables not touched by `stop`. -/
def stop (st : SRTNetState) : Bool × SRTNetState :=
  (true, { st with mCurrentMode := .unknown, mServerActive := false,
                   mClientActive := false, workerRunning := false,
                   mClientConnected := false, mClientList := [],
                   boundPort := 0 })

/-- The protocol's live-mode maximum payload size, `SRT_LIVE_MAX_PLSIZE`
from the SRT library headers (1456 bytes), used as the message ceiling
by the tests (`src/test/TestSrt.cpp:11`). -/
def SRT_LIVE_MAX_PLSIZE : Nat := 1456

/-- Modelled from the spec: `SRTNet::sendData` (the body is not in the
source tree).  Per spec section 6 a send above the live-mode payload
maximum must fail fast without touching the socket; otherwise the call
looks up the target socket (server mode) or uses the cached client
socket and performs the protocol send, whose outcome `sendOk` the
environment supplies.  The third result component records whether a
protocol send was performed on a socket. -/
def sendData (st : SRTNetState) (size : Nat) (targetSystem : Nat)
    (sendOk : Bool) : Bool × SRTNetState × Bool :=
  if SRT_LIVE_MAX_PLSIZE < size then (false, st, false)
  else
    match st.mCurrentMode with
    | .server =>
        if st.mClientList.contains targetSystem then (sendOk, st, true)
        else (false, st, false)
    | .client =>
        if st.mClientConnected then (sendOk, st, true) else (false, st, false)
    | .unknown => (false, st, false)

/-- Which data callback a received message is dispatched to. -/
inductive DataCallback
  | noCopy
  | copy
  | skipped
deriving DecidableEq

/-- Modelled from the spec: data-callback selection of the event engine
(spec sections 4.5 and 9): the two data callback slots are optional; if
`receivedDataNoCopy` is installed it is invoked, otherwise
`receivedData` is invoked if installed; a `nullptr` slot cannot be
invoked, so with neither installed the message is dropped. -/
def dispatchReceivedData (hasNoCopy hasData : Bool) : DataCallback :=
  if hasNoCopy then .noCopy else if hasData then .copy else .skipped

/-- Callback invocations observable from the server event engine:
the connect-validation callback returning non-null or null, a data
callback delivery, and a `clientDisconnected` delivery. -/
inductive SrvEvent
  | connectedNonNull (s : Nat)
  | connectedRejected (s : Nat)
  | dataDelivered (s : Nat) (cb : DataCallback)
  | disconnected (s : Nat)
deriving DecidableEq

/-- Environment stimuli driving a running server: a peer is accepted
(with the user validation callback accepting or rejecting it), a socket
turns broken, a message arrives on a readable accepted socket, or the
owner calls `stop`. -/
inductive SrvAction
  | acceptClient (s : Nat) (userAccepts : Bool)
  | socketBroken (s : Nat)
  | messageArrives (s : Nat)
  | stopCall
deriving DecidableEq

/-- Modelled from the spec: one reaction of the server (the bodies of
`waitForSRTClient`, `serverEventHandler` and `closeAllClientSockets` are
not in the source tree).  Per spec sections 4.4, 4.5 and 4.7: an
accepted peer whose validation callback returns non-null is inserted in
the registry, a rejected one is closed and dropped; a broken socket is
removed from the registry and `clientDisconnected` is invoked for it; a
readable registered socket has one message dispatched to a data
callback; `stop` drains the registry invoking `clientDisconnected` for
every registered socket before returning.  A stopped server reacts to
nothing. -/
def srvStep (st : SRTNetState) : SrvAction → SRTNetState × List SrvEvent
  | .acceptClient s userAccepts =>
      if st.mServerActive = true ∧ s ∉ st.mClientList then
        if userAccepts then
          ({ st with mClientList := s :: st.mClientList },
           [.connectedNonNull s])
        else (st, [.connectedRejected s])
      else (st, [])
  | .socketBroken s =>
      if st.mServerActive = true ∧ s ∈ st.mClientList then
        ({ st with mClientList := st.mClientList.erase s }, [.disconnected s])
      else (st, [])
  | .messageArrives s =>
      if st.mServerActive = true ∧ s ∈ st.mClientList then
        (st, match dispatchReceivedData st.hasReceivedDataNoCopy
                     st.hasReceivedData with
             | .skipped => []
             | cb => [.dataDelivered s cb])
      else (st, [])
  | .stopCall => ((stop st).2, st.mClientList.map SrvEvent.disconnected)

/-- Run the server against a list of stimuli, collecting the callback
trace. -/
def runSrv (st : SRTNetState) : List SrvAction → SRTNetState × List SrvEvent
  | [] => (st, [])
  | a :: as =>
      let r1 := srvStep st a
      let r2 := runSrv r1.1 as
      (r2.1, r1.2 ++ r2.2)

/-- Number of times the validation callback returned non-null for
socket `s` in a trace. -/
def countConnected (evs : List SrvEvent) (s : Nat) : Nat :=
  evs.count (SrvEvent.connectedNonNull s)

/-- Number of `clientDisconnected` deliveries for socket `s` in a
trace. -/
def countDisconnected (evs : List SrvEvent) (s : Nat) : Nat :=
  evs.count (SrvEvent.disconnected s)

/-- A server that has been started successfully (mode server, active,
empty registry, the mandatory `clientConnected` callback plus the
`clientDisconnected` callback installed), ready to accept peers. -/
def serverReady : SRTNetState :=
  { initState with mCurrentMode := .server, mServerActive := true,
                   workerRunning := true, boundPort := 8009,
                   hasClientConnected := true,
                   hasClientDisconnected := true }

/-- A client that started successfully and is connected to a server. -/
def connectedClient : SRTNetState :=
  { initState with mCurrentMode := .client, mClientActive := true,
                   workerRunning := true, mClientConnected := true }

/-- An instance that is fully at rest: unknown mode, nothing active, no
worker, empty registry, no bound port (the shape of a never-started or
stopped instance). -/
def Quiescent (st : SRTNetState) : Prop :=
  st.mCurrentMode = Mode.unknown ∧ st.mServerActive = false ∧
  st.mClientActive = false ∧ st.workerRunning = false ∧
  st.mClientConnected = false ∧ st.mClientList = [] ∧ st.boundPort = 0

/-- C9: the sentinel values of `ConnectionInformation` when the peer's
data is unavailable are exactly the string "n/a" for `mPeerSrtVersion`
and the integer -1 for `mNegotiatedLatency`, and a default-constructed
`ConnectionInformation` holds these two values. -/
theorem connectionInformation_sentinels :
    defaultConnectionInformation.mPeerSrtVersion = "n/a"
  ∧ defaultConnectionInformation.mNegotiatedLatency = -1
  ∧ defaultConnectionInformation
      = { mPeerSrtVersion := "n/a", mNegotiatedLatency := -1 } :=
  ⟨rfl, rfl, rfl⟩

/-- C2: when the reachable server's pre-shared key does not match, the
connect attempt surfaces as `failToConnect` and `startClient` returns
false leaving the instance unchanged (no silent retry, whatever the
`failOnConnectionError` flag); a subsequent `startClient` with aligned
keys returns true and the client is connected. -/
theorem psk_mismatch_fails_then_aligned_succeeds (st : SRTNetState)
    (b : Bool) (hmode : st.mCurrentMode = Mode.unknown) :
    clientConnectToServer (ConnectEnv.reachable false)
      = ClientConnectStatus.failToConnect
  ∧ startClient st (ConnectEnv.reachable false) b = (false, st)
  ∧ (startClient (startClient st (ConnectEnv.reachable false) b).2
       (ConnectEnv.reachable true) b).1 = true
  ∧ isConnectedToServer
      (startClient (startClient st (ConnectEnv.reachable false) b).2
        (ConnectEnv.reachable true) b).2 = true := by
  refine ⟨rfl, ?_, ?_, ?_⟩ <;>
    simp [startClient, clientConnectToServer, pskRejected, hmode,
          isConnectedToServer]

/-- Witness for C2 at the concrete fresh instance with the flag false,
as in `TestPsk`. -/
theorem psk_mismatch_witness :
    clientConnectToServer (ConnectEnv.reachable false)
      = ClientConnectStatus.failToConnect
  ∧ startClient initState (ConnectEnv.reachable false) false
      = (false, initState)
  ∧ (startClient (startClient initState (ConnectEnv.reachable false) false).2
       (ConnectEnv.reachable true) false).1 = true
  ∧ isConnectedToServer
      (startClient (startClient initState (ConnectEnv.reachable false) false).2
        (ConnectEnv.reachable true) false).2 = true :=
  psk_mismatch_fails_then_aligned_succeeds initState false rfl

/-- C3: a `sendData` call whose size exceeds the live-mode maximum
payload size returns false, performs no send on any socket, and leaves
the connection state exactly as before the call. -/
theorem oversize_send_fails_fast (st : SRTNetState)
    (size targetSystem : Nat) (sendOk : Bool)
    (h : SRT_LIVE_MAX_PLSIZE < size) :
    sendData st size targetSystem sendOk = (false, st, false) := by
  simp [sendData, h]

/-- Witness for C3: a connected client sending live-max + 1 bytes is
refused with no send performed and remains connected. -/
theorem oversize_send_witness :
    SRT_LIVE_MAX_PLSIZE < 1457
  ∧ sendData connectedClient 1457 0 true = (false, connectedClient, false)
  ∧ isConnectedToServer connectedClient = true :=
  ⟨by decide, oversize_send_fails_fast connectedClient 1457 0 true (by decide),
   by decide⟩

/-- C4: `stop` returns true in every instance state, composing `stop`
with `stop` equals `stop`, and on an instance already at rest (never
started or already stopped, hence in unknown mode) `stop` returns true
and leaves the state unchanged. -/
theorem stop_always_succeeds_and_idempotent (st : SRTNetState) :
    (stop st).1 = true
  ∧ stop (stop st).2 = stop st
  ∧ (Quiescent st → (stop st).2 = st) := by
  refine ⟨rfl, rfl, ?_⟩
  rintro ⟨h1, h2, h3, h4, h5, h6, h7⟩
  cases st
  simp_all [stop]

/-- Witness for C4 at the freshly constructed instance. -/
theorem stop_witness :
    (stop initState).1 = true
  ∧ stop (stop initState).2 = stop initState
  ∧ (stop initState).2 = initState :=
  ⟨(stop_always_succeeds_and_idempotent initState).1,
   (stop_always_succeeds_and_idempotent initState).2.1,
   (stop_always_succeeds_and_idempotent initState).2.2
     ⟨rfl, rfl, rfl, rfl, rfl, rfl, rfl⟩⟩

/-- C5: `startServer` returns false (leaving the instance unchanged)
whenever the `clientConnected` callback is not installed, regardless of
the other arguments, and it can succeed with only `clientConnected`
installed and every other callback left unset. -/
theorem startServer_requires_clientConnected (st : SRTNetState)
    (bindOk : Bool) (port : Nat) :
    (st.hasClientConnected = false → startServer st bindOk port = (false, st))
  ∧ (startServer { initState with hasClientConnected := true } true port).1
      = true := by
  constructor
  · intro h
    simp [startServer, h]
  · simp [startServer, initState]

/-- Witness for C5: the fresh instance (no callbacks) is refused; with
only `clientConnected` installed the server starts. -/
theorem startServer_requires_clientConnected_witness :
    startServer initState true 8009 = (false, initState)
  ∧ (startServer { initState with hasClientConnected := true } true 8009).1
      = true :=
  ⟨(startServer_requires_clientConnected initState true 8009).1 rfl,
   (startServer_requires_clientConnected initState true 8009).2⟩

/-- C1 counterexample: a `startClient` call whose first connection
attempt fails with `failToConnect` (a reachable server rejecting the
handshake over a mismatched pre-shared key) and whose
`failOnConnectionError` flag is false returns false and starts no
worker, where the claim demands that every such call return true with a
retrying worker. -/
theorem failToConnect_flagFalse_counterexample :
    clientConnectToServer (ConnectEnv.reachable false)
      = ClientConnectStatus.failToConnect
  ∧ (startClient initState (ConnectEnv.reachable false) false).1 = false
  ∧ (startClient initState (ConnectEnv.reachable false) false).2.workerRunning
      = false := by
  decide

/-- C1 amended: for a `startClient` call from a fresh instance whose
first connection attempt fails with `failToConnect`: with
`failOnConnectionError` true it returns false and spawns no worker
(state unchanged); with the flag false and a failure that is not a
pre-shared-key rejection it returns true with a retrying worker started
and the client not yet connected; a call whose address resolution fails
returns false with no worker regardless of the flag. -/
theorem startClient_flag_semantics (st : SRTNetState) (env : ConnectEnv)
    (b : Bool) (hmode : st.mCurrentMode = Mode.unknown) :
    (clientConnectToServer env = ClientConnectStatus.failToConnect →
        startClient st env true = (false, st)
      ∧ (pskRejected env = false →
            (startClient st env false).1 = true
          ∧ (startClient st env false).2.workerRunning = true
          ∧ (startClient st env false).2.mClientConnected = false))
  ∧ (clientConnectToServer env = ClientConnectStatus.failToResolveAddress →
        startClient st env b = (false, st)) := by
  cases env with
  | reachable pskMatches =>
      cases pskMatches <;>
        simp [startClient, clientConnectToServer, pskRejected, hmode]
  | noListener =>
      simp [startClient, clientConnectToServer, pskRejected, hmode]
  | badAddress =>
      simp [startClient, clientConnectToServer, pskRejected, hmode]

/-- Witness for the amended C1: concrete fresh instance, no listener
reachable, and a corrupt remote address. -/
theorem startClient_flag_semantics_witness :
    startClient initState ConnectEnv.noListener true = (false, initState)
  ∧ (startClient initState ConnectEnv.noListener false).1 = true
  ∧ (startClient initState ConnectEnv.noListener false).2.workerRunning = true
  ∧ (startClient initState ConnectEnv.noListener false).2.mClientConnected
      = false
  ∧ startClient initState ConnectEnv.badAddress true = (false, initState) := by
  have h1 := startClient_flag_semantics initState ConnectEnv.noListener true rfl
  have h2 := startClient_flag_semantics initState ConnectEnv.badAddress true rfl
  exact ⟨(h1.1 rfl).1, ((h1.1 rfl).2 rfl).1, ((h1.1 rfl).2 rfl).2.1,
         ((h1.1 rfl).2 rfl).2.2, h2.2 rfl⟩

/-- The state of a fresh instance carrying the same installed callback
slots as `st`: what stopping an instance must return it to for the
instance to be reusable. -/
def freshWithCallbacks (st : SRTNetState) : SRTNetState :=
  { initState with hasClientConnected := st.hasClientConnected,
                   hasReceivedData := st.hasReceivedData,
                   hasReceivedDataNoCopy := st.hasReceivedDataNoCopy,
                   hasClientDisconnected := st.hasClientDisconnected,
                   hasConnectedToServer := st.hasConnectedToServer }

/-- C10: after `stop` returns, the instance state equals that of a
freshly constructed instance with the same callbacks installed (so every
getter behaves as on a fresh instance), and a subsequent `startServer`
(when `clientConnected` is installed) or `startClient` can succeed on
the same object, in either mode. -/
theorem reusable_after_stop (st : SRTNetState) (b : Bool) (port : Nat) :
    (stop st).2 = freshWithCallbacks st
  ∧ (st.hasClientConnected = true →
       (startServer (stop st).2 true port).1 = true)
  ∧ (startClient (stop st).2 (ConnectEnv.reachable true) b).1 = true
  ∧ isConnectedToServer
      (startClient (stop st).2 (ConnectEnv.reachable true) b).2 = true := by
  refine ⟨rfl, ?_, ?_, ?_⟩
  · intro h
    simp [stop, startServer, h]
  · simp [stop, startClient, clientConnectToServer]
  · simp [stop, startClient, clientConnectToServer, isConnectedToServer]

/-- Witness for C10: a started server instance is stopped and then
restarted as a server and started as a client. -/
theorem reusable_after_stop_witness :
    (stop serverReady).2 = freshWithCallbacks serverReady
  ∧ (startServer (stop serverReady).2 true 8009).1 = true
  ∧ (startClient (stop serverReady).2 (ConnectEnv.reachable true) true).1
      = true
  ∧ isConnectedToServer
      (startClient (stop serverReady).2 (ConnectEnv.reachable true) true).2
      = true :=
  ⟨(reusable_after_stop serverReady true 8009).1,
   (reusable_after_stop serverReady true 8009).2.1 rfl,
   (reusable_after_stop serverReady true 8009).2.2.1,
   (reusable_after_stop serverReady true 8009).2.2.2⟩

/-- A running multi-client server with one accepted client socket (7) in
its registry and no data callback installed. -/
def serverReadyWithClient : SRTNetState :=
  { serverReady with mClientList := [7] }

/-- C8 counterexample: a message received on a readable registered
socket of a running server with neither data callback installed invokes
no callback at all (the trace of the step is empty), where the claim
demands that exactly one of the two data callbacks be invoked. -/
theorem data_dispatch_counterexample :
    dispatchReceivedData false false = DataCallback.skipped
  ∧ serverReadyWithClient.hasReceivedDataNoCopy = false
  ∧ serverReadyWithClient.hasReceivedData = false
  ∧ serverReadyWithClient.mServerActive = true
  ∧ (srvStep serverReadyWithClient (SrvAction.messageArrives 7)).2 = [] := by
  decide

/-- C8 amended: when a message is received on a readable registered
socket, at most one data callback is invoked and the instance state is
unchanged; if `receivedDataNoCopy` is installed it is the one invoked
(so it is preferred when both are set); otherwise `receivedData` is
invoked if installed; with neither installed no callback is invoked. -/
theorem data_dispatch_preference (st : SRTNetState) (s : Nat)
    (hactive : st.mServerActive = true) (hmem : s ∈ st.mClientList) :
    (st.hasReceivedDataNoCopy = true →
       (srvStep st (SrvAction.messageArrives s)).2
         = [SrvEvent.dataDelivered s DataCallback.noCopy])
  ∧ (st.hasReceivedDataNoCopy = false → st.hasReceivedData = true →
       (srvStep st (SrvAction.messageArrives s)).2
         = [SrvEvent.dataDelivered s DataCallback.copy])
  ∧ (st.hasReceivedDataNoCopy = false → st.hasReceivedData = false →
       (srvStep st (SrvAction.messageArrives s)).2 = [])
  ∧ (srvStep st (SrvAction.messageArrives s)).1 = st := by
  refine ⟨?_, ?_, ?_, ?_⟩ <;>
    simp [srvStep, dispatchReceivedData, hactive, hmem] <;>
    intros <;> simp_all

/-- The running server with one client and both data callbacks
installed. -/
def serverBothDataCallbacks : SRTNetState :=
  { serverReadyWithClient with hasReceivedData := true
                               hasReceivedDataNoCopy := true }

/-- Witness for the amended C8: with both data callbacks installed the
no-copy one is the one invoked. -/
theorem data_dispatch_preference_witness :
    (srvStep serverBothDataCallbacks (SrvAction.messageArrives 7)).2
      = [SrvEvent.dataDelivered 7 DataCallback.noCopy] :=
  (data_dispatch_preference serverBothDataCallbacks 7 rfl (by decide)).1 rfl

/-- The public facade operations that can change an instance. -/
inductive FacadeOp
  | opStartServer (bindOk : Bool) (port : Nat)
  | opStartClient (env : ConnectEnv) (failOnConnectionError : Bool)
  | opStop
  | opSendData (size targetSystem : Nat) (sendOk : Bool)
deriving DecidableEq

/-- Apply one facade operation, returning its boolean result and the
successor state. -/
def applyOp (st : SRTNetState) : FacadeOp → Bool × SRTNetState
  | .opStartServer bindOk port => startServer st bindOk port
  | .opStartClient env f => startClient st env f
  | .opStop => stop st
  | .opSendData size targetSystem sendOk =>
      ((sendData st size targetSystem sendOk).1,
       (sendData st size targetSystem sendOk).2.1)

/-- `sendData` never mutates the wrapper state. -/
theorem sendData_preserves_state (st : SRTNetState) (size targetSystem : Nat)
    (sendOk : Bool) : (sendData st size targetSystem sendOk).2.1 = st := by
  unfold sendData
  split
  · rfl
  · cases st.mCurrentMode <;> simp <;> split <;> rfl

/-- C6: across every facade operation, the observed mode changes only
from unknown to server or client on a successful start or to unknown on
`stop`; there is no direct server-to-client or client-to-server
transition; and an operation that returns false leaves the mode
unchanged (in particular a failed start leaves it at unknown). -/
theorem mode_transitions (st : SRTNetState) (op : FacadeOp) :
    (getCurrentMode (applyOp st op).2 ≠ getCurrentMode st →
        (getCurrentMode st = Mode.unknown ∧ (applyOp st op).1 = true
          ∧ op ≠ FacadeOp.opStop)
      ∨ (op = FacadeOp.opStop
          ∧ getCurrentMode (applyOp st op).2 = Mode.unknown))
  ∧ ¬(getCurrentMode st = Mode.server
      ∧ getCurrentMode (applyOp st op).2 = Mode.client)
  ∧ ¬(getCurrentMode st = Mode.client
      ∧ getCurrentMode (applyOp st op).2 = Mode.server)
  ∧ ((applyOp st op).1 = false →
       getCurrentMode (applyOp st op).2 = getCurrentMode st) := by
  cases op with
  | opStartServer bindOk port =>
      by_cases h1 : st.hasClientConnected = false
      · simp_all [applyOp, startServer, getCurrentMode]
      · by_cases h2 : st.mCurrentMode = Mode.unknown
        · by_cases h3 : bindOk
          · simp_all [applyOp, startServer, getCurrentMode]
          · simp_all [applyOp, startServer, getCurrentMode]
        · simp_all [applyOp, startServer, getCurrentMode]
  | opStartClient env f =>
      by_cases h2 : st.mCurrentMode = Mode.unknown
      · cases env with
        | reachable pskMatches =>
            cases pskMatches <;> cases f <;>
              simp_all [applyOp, startClient, clientConnectToServer,
                        pskRejected, getCurrentMode]
        | noListener =>
            cases f <;>
              simp_all [applyOp, startClient, clientConnectToServer,
                        pskRejected, getCurrentMode]
        | badAddress =>
            simp_all [applyOp, startClient, clientConnectToServer,
                      getCurrentMode]
      · simp_all [applyOp, startClient, getCurrentMode]
  | opStop =>
      cases h : st.mCurrentMode <;>
        simp_all [applyOp, stop, getCurrentMode]
  | opSendData size targetSystem sendOk =>
      have h := sendData_preserves_state st size targetSystem sendOk
      simp [applyOp, getCurrentMode, h]
      constructor
      · intro ha hb
        rw [ha] at hb
        cases hb
      · intro ha hb
        rw [ha] at hb
        cases hb

/-- Witness for C6: a failed start on the fresh instance leaves the mode
at unknown. -/
theorem mode_transitions_witness :
    getCurrentMode
        (applyOp initState (FacadeOp.opStartClient ConnectEnv.badAddress true)).2
      = getCurrentMode initState :=
  (mode_transitions initState
      (FacadeOp.opStartClient ConnectEnv.badAddress true)).2.2.2 (by decide)

/-- Registry-membership indicator for socket `s`: 1 when `s` is in the
registry of `st`, else 0. -/
def memInd (st : SRTNetState) (s : Nat) : Nat :=
  if s ∈ st.mClientList then 1 else 0

theorem countConnected_append (e1 e2 : List SrvEvent) (s : Nat) :
    countConnected (e1 ++ e2) s = countConnected e1 s + countConnected e2 s := by
  simp [countConnected]

theorem countDisconnected_append (e1 e2 : List SrvEvent) (s : Nat) :
    countDisconnected (e1 ++ e2) s
      = countDisconnected e1 s + countDisconnected e2 s := by
  simp [countDisconnected]

/-- One server step preserves the no-duplicates invariant of the
registry. -/
theorem srvStep_nodup (st : SRTNetState) (a : SrvAction)
    (hnd : st.mClientList.Nodup) : (srvStep st a).1.mClientList.Nodup := by
  cases a with
  | acceptClient t u =>
      by_cases hg : st.mServerActive = true ∧ t ∉ st.mClientList
      · cases u <;> simp [srvStep, hg, hnd, hg.2]
      · simp [srvStep, hg, hnd]
  | socketBroken t =>
      by_cases hg : st.mServerActive = true ∧ t ∈ st.mClientList
      · simp [srvStep, hg, List.Nodup.erase t hnd]
      · simp [srvStep, hg, hnd]
  | messageArrives t =>
      by_cases hg : st.mServerActive = true ∧ t ∈ st.mClientList
      · simp [srvStep, hg, hnd]
      · simp [srvStep, hg, hnd]
  | stopCall => simp [srvStep, stop]

/-- Balance of one server step: the `clientDisconnected` deliveries plus
the registry occupancy after the step equal the non-null accepts plus
the occupancy before the step, per socket. -/
theorem srvStep_balance (st : SRTNetState) (a : SrvAction) (s : Nat)
    (hnd : st.mClientList.Nodup) :
    countDisconnected (srvStep st a).2 s + memInd (srvStep st a).1 s
      = countConnected (srvStep st a).2 s + memInd st s := by
  cases a with
  | acceptClient t u =>
      by_cases hg : st.mServerActive = true ∧ t ∉ st.mClientList
      · cases u with
        | false =>
            simp [srvStep, hg, countConnected, countDisconnected,
                  List.count_singleton']
        | true =>
            by_cases hts : s = t
            · subst hts
              simp [srvStep, hg, countConnected, countDisconnected,
                    List.count_singleton', memInd, hg.2]
            · simp [srvStep, hg, countConnected, countDisconnected,
                    List.count_singleton', memInd, hts,
                    Ne.symm hts]
      · simp [srvStep, hg, memInd, countConnected, countDisconnected]
  | socketBroken t =>
      by_cases hg : st.mServerActive = true ∧ t ∈ st.mClientList
      · by_cases hts : s = t
        · subst hts
          simp [srvStep, hg, countConnected, countDisconnected,
                List.count_singleton', memInd, hg.2,
                List.Nodup.not_mem_erase hnd]
        · simp [srvStep, hg, countConnected, countDisconnected,
                List.count_singleton', memInd, hts,
                List.mem_erase_of_ne hts]
      · simp [srvStep, hg, memInd, countConnected, countDisconnected]
  | messageArrives t =>
      by_cases hg : st.mServerActive = true ∧ t ∈ st.mClientList
      · cases hd : dispatchReceivedData st.hasReceivedDataNoCopy
            st.hasReceivedData <;>
          simp [srvStep, hg, hd, countConnected, countDisconnected,
                List.count_singleton']
      · simp [srvStep, hg, memInd, countConnected, countDisconnected]
  | stopCall =>
      have hc : countConnected (st.mClientList.map SrvEvent.disconnected) s
          = 0 := by
        rw [countConnected, List.count_eq_zero]
        simp
      have hdisc : countDisconnected (st.mClientList.map SrvEvent.disconnected) s
          = memInd st s := by
        rw [countDisconnected,
            List.count_map_of_injective st.mClientList SrvEvent.disconnected
              (fun a b h => by cases h; rfl) s]
        by_cases hm : s ∈ st.mClientList
        · simp [memInd, hm, List.count_eq_one_of_mem hnd hm]
        · simp [memInd, hm, List.count_eq_zero_of_not_mem hm]
      simp [srvStep, stop, hc, hdisc, memInd]

theorem runSrv_nil (st : SRTNetState) : runSrv st [] = (st, []) := rfl

theorem runSrv_cons (st : SRTNetState) (a : SrvAction) (as : List SrvAction) :
    runSrv st (a :: as)
      = ((runSrv (srvStep st a).1 as).1,
         (srvStep st a).2 ++ (runSrv (srvStep st a).1 as).2) := rfl

/-- A run preserves the no-duplicates invariant of the registry. -/
theorem runSrv_nodup (as : List SrvAction) (st : SRTNetState)
    (hnd : st.mClientList.Nodup) : (runSrv st as).1.mClientList.Nodup := by
  induction as generalizing st with
  | nil => simpa [runSrv_nil] using hnd
  | cons a as ih =>
      rw [runSrv_cons]
      exact ih (srvStep st a).1 (srvStep_nodup st a hnd)

/-- Balance of a whole run: disconnect deliveries plus final registry
occupancy equal non-null accepts plus initial occupancy, per socket. -/
theorem runSrv_balance (as : List SrvAction) (st : SRTNetState) (s : Nat)
    (hnd : st.mClientList.Nodup) :
    countDisconnected (runSrv st as).2 s + memInd (runSrv st as).1 s
      = countConnected (runSrv st as).2 s + memInd st s := by
  induction as generalizing st with
  | nil => simp [runSrv_nil, countConnected, countDisconnected]
  | cons a as ih =>
      have h1 := srvStep_balance st a s hnd
      have h2 := ih (srvStep st a).1 (srvStep_nodup st a hnd)
      simp only [runSrv_cons, countDisconnected_append, countConnected_append]
      omega

theorem runSrv_append (st : SRTNetState) (as bs : List SrvAction) :
    runSrv st (as ++ bs)
      = ((runSrv (runSrv st as).1 bs).1,
         (runSrv st as).2 ++ (runSrv (runSrv st as).1 bs).2) := by
  induction as generalizing st with
  | nil => simp [runSrv_nil]
  | cons a as ih => simp [runSrv_cons, ih]

/-- A stopped server reacts to nothing: from a state that is inactive,
with a drained registry and a no-op `stop`, any further stimuli produce
no callback at all. -/
theorem runSrv_stopped (st : SRTNetState) (bs : List SrvAction)
    (hact : st.mServerActive = false) (hlist : st.mClientList = [])
    (hstop : (stop st).2 = st) :
    runSrv st bs = (st, []) := by
  induction bs with
  | nil => rfl
  | cons a bs ih =>
      have hstep : srvStep st a = (st, []) := by
        cases a with
        | acceptClient t u => simp [srvStep, hact]
        | socketBroken t => simp [srvStep, hact]
        | messageArrives t => simp [srvStep, hact]
        | stopCall => simp [srvStep, hlist, hstop]
      rw [runSrv_cons, hstep]
      simp [ih]

/-- C7: for every run of a started server, each socket receives exactly
as many `clientDisconnected` deliveries by the time `stop` returns as
the times its `clientConnected` callback returned non-null, hence
exactly one per accepted connection; after `stop` returns no callback at
all is delivered; and at no point does a socket accumulate more
disconnect deliveries than non-null accepts. -/
theorem callback_pairing (as bs : List SrvAction) (s : Nat) :
    countDisconnected (runSrv serverReady (as ++ [SrvAction.stopCall])).2 s
      = countConnected (runSrv serverReady (as ++ [SrvAction.stopCall])).2 s
  ∧ (runSrv (runSrv serverReady (as ++ [SrvAction.stopCall])).1 bs).2 = []
  ∧ countDisconnected (runSrv serverReady as).2 s
      ≤ countConnected (runSrv serverReady as).2 s := by
  have hnd : serverReady.mClientList.Nodup := List.nodup_nil
  have hfin : (runSrv serverReady (as ++ [SrvAction.stopCall])).1
      = (stop (runSrv serverReady as).1).2 := by
    rw [runSrv_append]
    rfl
  have hmem0 : memInd (runSrv serverReady (as ++ [SrvAction.stopCall])).1 s
      = 0 := by
    rw [hfin]
    simp [memInd, stop]
  have hmemInit : memInd serverReady s = 0 := by
    simp [memInd, serverReady, initState]
  refine ⟨?_, ?_, ?_⟩
  · have hbal := runSrv_balance (as ++ [SrvAction.stopCall]) serverReady s hnd
    omega
  · rw [hfin, runSrv_stopped (stop (runSrv serverReady as).1).2 bs rfl rfl rfl]
  · have hbal := runSrv_balance as serverReady s hnd
    omega
